import Mathlib

/-!
Shallow embedding of the Xen-specific bus_dma(9) backend
(`sys/x86/xen/busdma_xen.c`, interface `sys/xen/busdma_xen.h`).

The grant-table primitives (`gnttab_*`) and the parent bus_dma layer are
external collaborators of this file; they are modelled from their documented
contracts.  Machine integers are modelled as `Nat` (all quantities involved —
error codes, flags words, reference numbers, addresses — are non-negative and
no overflow is relevant to the verified properties).  C's `NULL` pointer for
the `refs` and `temp_segs` arrays is modelled as `Option.none`.
-/

namespace BusdmaXen

/-- Model: `PAGE_SIZE` on x86. -/
def PAGE_SIZE : Nat := 4096

/-- Model: `PAGE_SHIFT` on x86; `atop(x) = x >> PAGE_SHIFT`. -/
def PAGE_SHIFT : Nat := 12

/-- Model: `atop`: convert a byte address to a machine frame number. -/
def atop (x : Nat) : Nat := x >>> PAGE_SHIFT

/-- Model: `BUS_DMA_XEN_GNTTAB_FLAGS_SHIFT` from `busdma_xen.h`. -/
def BUS_DMA_XEN_GNTTAB_FLAGS_SHIFT : Nat := 16

/-- Model: `BUS_DMA_XEN_DOMID_SHIFT` from `busdma_xen.h`. -/
def BUS_DMA_XEN_DOMID_SHIFT : Nat := 16

/-- Model: `BUS_DMA_BUS1` from `sys/bus_dma.h` (0x10). -/
def BUS_DMA_BUS1 : Nat := 0x10

/-- Model: `BUS_DMA_BUS2` from `sys/bus_dma.h` (0x20). -/
def BUS_DMA_BUS2 : Nat := 0x20

/-- Model: `BUSDMA_XEN_TAG_INIT` (an alias of `BUS_DMA_BUS1`). -/
def BUSDMA_XEN_TAG_INIT : Nat := BUS_DMA_BUS1

/-- Model: `BUS_DMA_XEN_PREALLOC_REFS` (an alias of `BUS_DMA_BUS2`). -/
def BUS_DMA_XEN_PREALLOC_REFS : Nat := BUS_DMA_BUS2

/-- Model: `BUS_SPACE_MAXADDR` on amd64 (`0xFFFFFFFFFFFFFFFF`); all that matters
below is that it exceeds `PAGE_SIZE`, which holds on every x86 flavour. -/
def BUS_SPACE_MAXADDR : Nat := 0xFFFFFFFFFFFFFFFF

/-- Model: `BUS_SPACE_UNRESTRICTED` (`~0u`). -/
def BUS_SPACE_UNRESTRICTED : Nat := 0xFFFFFFFF

/-- errno values used by the code. -/
def ENOMEM : Nat := 12

def EINVAL : Nat := 22

def ENOSPC : Nat := 28

def EINPROGRESS : Nat := 36

/-- Model: `bus_dma_segment_t`: one translated DMA segment. -/
structure bus_dma_segment_t where
  ds_addr : Nat
  ds_len : Nat
deriving Repr, DecidableEq

/-- The fields of `struct bus_dma_tag_xen` relevant to the grant logic
(the embedded `common` tag and the parent handle are external). -/
structure bus_dma_tag_xen where
  max_segments : Nat
  domid : Nat
deriving Repr, DecidableEq

/-- The fields of `struct bus_dmamap_xen` owned by the grant logic.
`refs = none` models a `NULL` `refs` pointer; `temp_segs = none` models a
`NULL` `temp_segs` pointer.  The parent map handle and the saved callback
pointers are external. -/
structure bus_dmamap_xen where
  refs : Option (List Nat)
  nrefs : Nat
  temp_segs : Option (List bus_dma_segment_t)
  sleepable : Bool
  preallocated : Bool
  loaded : Bool
  gnttab_flags : Nat
deriving Repr, DecidableEq

/-- A freshly `malloc(M_ZERO)`ed map, as produced at the top of
`xen_bus_dmamap_create`. -/
def zeroed_map : bus_dmamap_xen :=
  { refs := none, nrefs := 0, temp_segs := none, sleepable := false,
    preallocated := false, loaded := false, gnttab_flags := 0 }

/-- What one grant-table entry is bound to: (domain, machine frame,
access flags). -/
structure GrantBinding where
  domid : Nat
  frame : Nat
  flags : Nat
deriving Repr, DecidableEq

/-- Modelled from the spec: the hypervisor grant-table state consumed by the
core, which is not part of this repository (`xen/gnttab.h` collaborators).
`free` is the pool of currently-free references, claimed from the front;
`bound` records what each reference is currently granting. -/
structure gnttab_state where
  free : List Nat
  bound : Nat → Option GrantBinding

/-- Modelled from the spec: `gnttab_alloc_grant_references(count, &head)`
reserves `count` free slots as a unit, or fails (`ENOSPC`) without partial
reservation.  The returned list is the batch in the order
`gnttab_claim_grant_reference` pops it, so the claim loop
`for i: refs[i] = gnttab_claim_grant_reference(&head)` yields exactly this
list. -/
def gnttab_alloc_grant_references (count : Nat) (g : gnttab_state) :
    Except Nat (List Nat × gnttab_state) :=
  if count ≤ g.free.length then
    .ok (g.free.take count, { g with free := g.free.drop count })
  else
    .error ENOSPC

/-- Modelled from the spec: `gnttab_grant_foreign_access_ref(ref, domid,
frame, flags)` binds `ref` for the hypervisor. -/
def gnttab_grant_foreign_access_ref (ref domid frame flags : Nat)
    (g : gnttab_state) : gnttab_state :=
  { g with bound := fun r =>
      if r = ref then some ⟨domid, frame, flags⟩ else g.bound r }

/-- Modelled from the spec: `gnttab_end_foreign_access_ref(ref)` revokes the
binding but does not return the reference to the free pool. -/
def gnttab_end_foreign_access_ref (ref : Nat) (g : gnttab_state) :
    gnttab_state :=
  { g with bound := fun r => if r = ref then none else g.bound r }

/-- Modelled from the spec: `gnttab_end_foreign_access_references(count,
refs)` revokes the bindings and returns the references to the free pool. -/
def gnttab_end_foreign_access_references (refs : List Nat) (g : gnttab_state) :
    gnttab_state :=
  { free := g.free ++ refs,
    bound := fun r => if r ∈ refs then none else g.bound r }

/-- The loop `for i < n: gnttab_grant_foreign_access_ref(refs[i], domid,
atop(segs[i].ds_addr), flags)` shared by `xen_bus_dmamap_complete`,
`xen_dmamap_callback` and `xen_gnttab_free_callback`. -/
def grant_each (refs : List Nat) (segs : List bus_dma_segment_t)
    (domid flags : Nat) (g : gnttab_state) : gnttab_state :=
  match refs, segs with
  | r :: rs, s :: ss =>
      grant_each rs ss domid flags
        (gnttab_grant_foreign_access_ref r domid (atop s.ds_addr) flags g)
  | _, _ => g

/-- Result of the external segment translator
(`_bus_dmamap_load_ma` / `_load_phys` / `_load_buffer`): an errno (0 for
success, `EINPROGRESS` for a deferred translation) together with the
segments appended at the cursor on success. -/
inductive translate_result where
  | ok (segs : List bus_dma_segment_t)
  | err (e : Nat)
deriving Repr, DecidableEq

/-- Model: `struct load_op`, with the translator's behaviour for the buffer
description folded in (the buffer payloads themselves are opaque inputs of
the external translator). -/
inductive load_op where
  | load_ma (tr : translate_result)
  | load_phys (tr : translate_result)
  | load_buffer (tr : translate_result)
  | noload
deriving Repr, DecidableEq

/-- Outcome of `xen_load_helper`: either the `panic` on a loaded map, or a
return carrying the errno, the updated map and grant-table state, whether
the error path called `bus_dmamap_unload` on the parent map, and whether
`gnttab_request_free_callback` was armed. -/
inductive load_result where
  | fault
  | ret (error : Nat) (m : bus_dmamap_xen) (g : gnttab_state)
      (parent_unloaded : Bool) (callback_requested : Bool)

/-- Model: `xen_load_helper`.  `segp0` is `*op.segp` on entry; the translator
leaves `segp0 + segs.length` in it, so `segcount = *op.segp - segcount`
computes the cursor delta.  `malloc_refs_ok` / `malloc_temp_ok` are the
outcomes of the two `malloc(M_NOWAIT)` calls. -/
def xen_load_helper (xentag : bus_dma_tag_xen) (xenmap : bus_dmamap_xen)
    (op : load_op) (op_flags : Nat) (segp0 : Nat)
    (malloc_refs_ok malloc_temp_ok : Bool) (g : gnttab_state) : load_result :=
  let m0 := { xenmap with
              gnttab_flags := op_flags >>> BUS_DMA_XEN_GNTTAB_FLAGS_SHIFT }
  if m0.loaded then
    .fault
  else
    let tr : translate_result :=
      match op with
      | .load_ma tr => tr
      | .load_phys tr => tr
      | .load_buffer tr => tr
      | .noload => .ok []
    match tr with
    | .err e =>
        if e = EINPROGRESS then
          .ret EINPROGRESS m0 g false false
        else
          .ret e m0 g true false
    | .ok segs =>
        let m1 :=
          match op with
          | .noload => m0
          | _ => { m0 with nrefs := (segp0 + segs.length) - segp0 }
        if m1.preallocated then
          .ret 0 m1 g false false
        else if ¬ malloc_refs_ok then
          .ret ENOMEM { m1 with refs := none } g true false
        else
          match gnttab_alloc_grant_references m1.nrefs g with
          | .error e =>
              if ¬ m1.sleepable then
                .ret e { m1 with refs := none } g true false
              else
                match m1.temp_segs with
                | none =>
                    if ¬ malloc_temp_ok then
                      .ret ENOMEM { m1 with refs := none } g true false
                    else
                      .ret EINPROGRESS
                        { m1 with
                          refs := some (List.replicate m1.nrefs 0),
                          temp_segs := some (segs.take m1.nrefs) }
                        g false true
                | some _ =>
                    .ret EINPROGRESS
                      { m1 with refs := some (List.replicate m1.nrefs 0) }
                      g false true
          | .ok (batch, g1) =>
              .ret 0 { m1 with refs := some batch, loaded := true } g1
                false false

/-- Outcome of `xen_gnttab_free_callback`: the updated map and grant-table
state plus the single invocation of the client callback (its `segs`,
`nseg` and `error` arguments).  `none` models a `KASSERT` failure (the
re-attempted batch allocation failing, or a `NULL` `temp_segs`). -/
structure free_callback_result where
  m : bus_dmamap_xen
  g : gnttab_state
  callback_segs : List bus_dma_segment_t
  callback_nseg : Nat
  callback_error : Nat
  callback_count : Nat

/-- Model: `xen_gnttab_free_callback`: fired by the grant table once the requested
number of references is free.  Re-allocates the batch (asserted to
succeed), claims each reference into the map's `refs` array, binds it to
the snapshotted segment's frame, marks the map loaded, invokes the client
callback exactly once under the tag's lock, and releases the snapshot. -/
def xen_gnttab_free_callback (xentag : bus_dma_tag_xen)
    (xenmap : bus_dmamap_xen) (g : gnttab_state) :
    Option free_callback_result :=
  match gnttab_alloc_grant_references xenmap.nrefs g with
  | .error _ => none
  | .ok (batch, g1) =>
      match xenmap.temp_segs with
      | none => none
      | some segs =>
          let g2 := grant_each batch segs xentag.domid xenmap.gnttab_flags g1
          let m2 := { xenmap with refs := some batch, loaded := true,
                                  temp_segs := none }
          some { m := m2, g := g2, callback_segs := segs,
                 callback_nseg := xenmap.nrefs, callback_error := 0,
                 callback_count := 1 }

/-- Model: `xen_bus_dmamap_complete`.  The parent's `_bus_dmamap_complete` returns
the parent's stashed segment array — the very segments the translator
produced — which this model takes as the `segs` argument.  On success it
binds `refs[i]` to `atop(segs[i].ds_addr)` for `i < nrefs`; the returned
segment array is the parent's, unmodified. -/
def xen_bus_dmamap_complete (xentag : bus_dma_tag_xen)
    (xenmap : bus_dmamap_xen) (segs : List bus_dma_segment_t)
    (error : Nat) (g : gnttab_state) :
    List bus_dma_segment_t × gnttab_state :=
  if error ≠ 0 then
    (segs, g)
  else
    (segs, grant_each ((xenmap.refs.getD []).take xenmap.nrefs)
      (segs.take xenmap.nrefs) xentag.domid xenmap.gnttab_flags g)

/-- Observable ordered actions of `xen_bus_dmamap_unload` and
`xen_bus_dmamap_destroy`. -/
inductive map_event where
  | end_access (ref : Nat)
  | end_access_references (refs : List Nat)
  | free_refs_array
  | parent_unload
  | parent_destroy
deriving Repr, DecidableEq

/-- Model: `xen_bus_dmamap_unload`.  `none` models the `KASSERT(temp_segs == NULL)`
failing.  For a preallocated map only foreign access is ended (the array
is kept for `xen_bus_dmamap_destroy`); otherwise the references are
revoked and freed as a batch and the array is released.  The parent
`bus_dmamap_unload` is delegated to last. -/
def xen_bus_dmamap_unload (xenmap : bus_dmamap_xen) (g : gnttab_state) :
    Option (bus_dmamap_xen × gnttab_state × List map_event) :=
  if xenmap.temp_segs ≠ none then
    none
  else
    let used := (xenmap.refs.getD []).take xenmap.nrefs
    if xenmap.preallocated then
      let g1 := used.foldl (fun gs r => gnttab_end_foreign_access_ref r gs) g
      some ({ xenmap with nrefs := 0, sleepable := false, loaded := false },
            g1, used.map .end_access ++ [.parent_unload])
    else
      let g1 := gnttab_end_foreign_access_references used g
      let m1 := { xenmap with refs := none, nrefs := 0, sleepable := false,
                              loaded := false }
      some (m1, g1, [.end_access_references used, .free_refs_array,
                     .parent_unload])

/-- Model: `xen_bus_dmamap_create`.  `malloc_map_ok` / `malloc_refs_ok` are the
outcomes of the two `malloc(M_NOWAIT)` calls; the parent
`bus_dmamap_create` is assumed to succeed (its failure merely propagates).
With `BUS_DMA_XEN_PREALLOC_REFS` set, exactly `max_segments` references
are batch-allocated and claimed into the fresh map. -/
def xen_bus_dmamap_create (xentag : bus_dma_tag_xen) (flags : Nat)
    (malloc_map_ok malloc_refs_ok : Bool) (g : gnttab_state) :
    Except Nat (bus_dmamap_xen × gnttab_state) :=
  if ¬ malloc_map_ok then
    .error ENOMEM
  else if flags &&& BUS_DMA_XEN_PREALLOC_REFS ≠ 0 then
    if ¬ malloc_refs_ok then
      .error ENOMEM
    else
      match gnttab_alloc_grant_references xentag.max_segments g with
      | .error e => .error e
      | .ok (batch, g1) =>
          .ok ({ zeroed_map with refs := some batch, preallocated := true },
               g1)
  else
    .ok (zeroed_map, g)

/-- Model: `xen_bus_dmamap_destroy`.  `none` models the `KASSERT(refs == NULL)`
failing.  For a preallocated map the pre-claimed batch of `max_segments`
references is finally revoked and freed here. -/
def xen_bus_dmamap_destroy (xentag : bus_dma_tag_xen)
    (xenmap : bus_dmamap_xen) (g : gnttab_state) :
    Option (gnttab_state × List map_event) :=
  if xenmap.preallocated then
    let batch := (xenmap.refs.getD []).take xentag.max_segments
    some (gnttab_end_foreign_access_references batch g,
          [.parent_destroy, .end_access_references batch, .free_refs_array])
  else if xenmap.refs ≠ none then
    none
  else
    some (g, [.parent_destroy])

/-- External calls `xen_bus_dma_tag_create` can make. -/
inductive tag_create_call where
  | common_create
  | parent_create
  | parent_destroy
deriving Repr, DecidableEq

/-- Outcome of `xen_bus_dma_tag_create`: the returned errno, what (if
anything) was stored through the `dmat` out-parameter (`none` = the
routine returned without ever writing it), and the external creation
calls it made. -/
structure tag_create_result where
  error : Nat
  written : Option (Option bus_dma_tag_xen)
  calls : List tag_create_call
deriving Repr, DecidableEq

/-- Model: `xen_bus_dma_tag_create`.  The `maxsegsz > PAGE_SIZE` check runs first,
before `*dmat = NULL` and before either delegated tag creation; the domid
is decoded from the flags word shifted by `BUS_DMA_XEN_DOMID_SHIFT`.
`common_create_ok` / `parent_create_ok` model the two delegated creations
(`e` is the errno they propagate when failing). -/
def xen_bus_dma_tag_create (nsegments maxsegsz flags : Nat)
    (common_create_ok parent_create_ok : Bool) (e : Nat) :
    tag_create_result :=
  if maxsegsz > PAGE_SIZE then
    { error := EINVAL, written := none, calls := [] }
  else
    let domid := flags >>> BUS_DMA_XEN_DOMID_SHIFT
    if ¬ common_create_ok then
      { error := e, written := some none, calls := [.common_create] }
    else if ¬ parent_create_ok then
      { error := e, written := some none,
        calls := [.common_create, .parent_create, .parent_destroy] }
    else
      { error := 0,
        written := some (some { max_segments := nsegments, domid := domid }),
        calls := [.common_create, .parent_create] }

/-- Model: `xen_get_dma_tag`: calls `xen_bus_dma_tag_create` with
`BUS_SPACE_MAXADDR` as `maxsegsz` and returns the local `newtag`
regardless of the error.  `uninit` is the indeterminate initial value of
the uninitialized local `newtag`. -/
def xen_get_dma_tag (uninit : Option bus_dma_tag_xen)
    (common_create_ok parent_create_ok : Bool) (e : Nat) :
    Option bus_dma_tag_xen :=
  match (xen_bus_dma_tag_create BUS_SPACE_UNRESTRICTED BUS_SPACE_MAXADDR
      BUSDMA_XEN_TAG_INIT common_create_ok parent_create_ok e).written with
  | some v => v
  | none => uninit

/-- Model: `xen_dmamap_get_grefs`: read-only view of the map's current grant
reference array. -/
def xen_dmamap_get_grefs (xenmap : bus_dmamap_xen) : Option (List Nat) :=
  xenmap.refs

/-- Lookup of a reference's current grant binding. -/
def gref_binding (g : gnttab_state) (ref : Nat) : Option GrantBinding :=
  g.bound ref

/-- Projection used to state concrete facts about `xen_load_helper`
results without comparing grant-table states (whose `bound` field is a
function): the errno of a non-faulting result. -/
def lr_error : load_result → Option Nat
  | .fault => none
  | .ret e _ _ _ _ => some e

/-- The map component of a non-faulting `xen_load_helper` result. -/
def lr_map : load_result → Option bus_dmamap_xen
  | .fault => none
  | .ret _ m _ _ _ => some m

/-- Whether `xen_load_helper` hit the loaded-map `panic`. -/
def lr_is_fault : load_result → Bool
  | .fault => true
  | .ret _ _ _ _ _ => false

/-- Whether the error path delegated `bus_dmamap_unload` to the parent. -/
def lr_parent_unloaded : load_result → Option Bool
  | .fault => none
  | .ret _ _ _ pu _ => some pu

/-- Whether `gnttab_request_free_callback` was armed. -/
def lr_callback_requested : load_result → Option Bool
  | .fault => none
  | .ret _ _ _ _ cb => some cb

/-- The map component of an `xen_bus_dmamap_create` result. -/
def create_map_part : Except Nat (bus_dmamap_xen × gnttab_state) →
    Option bus_dmamap_xen
  | .ok (m, _) => some m
  | .error _ => none

/-- The map component of an `xen_bus_dmamap_unload` result. -/
def unload_map_part :
    Option (bus_dmamap_xen × gnttab_state × List map_event) →
    Option bus_dmamap_xen
  | some (m, _, _) => some m
  | none => none

/-- The event-trace component of an `xen_bus_dmamap_unload` result. -/
def unload_events_part :
    Option (bus_dmamap_xen × gnttab_state × List map_event) →
    Option (List map_event)
  | some (_, _, ev) => some ev
  | none => none

section GnttabLemmas

lemma gref_binding_grant_eq (ref domid frame flags : Nat) (g : gnttab_state) :
    gref_binding (gnttab_grant_foreign_access_ref ref domid frame flags g)
      ref = some ⟨domid, frame, flags⟩ := by
  simp [gref_binding, gnttab_grant_foreign_access_ref]

lemma gref_binding_grant_ne (ref r domid frame flags : Nat)
    (g : gnttab_state) (h : ref ≠ r) :
    gref_binding (gnttab_grant_foreign_access_ref r domid frame flags g)
      ref = gref_binding g ref := by
  simp [gref_binding, gnttab_grant_foreign_access_ref, h]

lemma grant_each_not_mem (refs : List Nat) (segs : List bus_dma_segment_t)
    (domid flags ref : Nat) (g : gnttab_state) (h : ref ∉ refs) :
    gref_binding (grant_each refs segs domid flags g) ref =
      gref_binding g ref := by
  induction refs generalizing segs g with
  | nil => cases segs <;> simp [grant_each]
  | cons r rs ih =>
      cases segs with
      | nil => simp [grant_each]
      | cons s ss =>
          have hne : ref ≠ r := fun hx => h (hx ▸ List.mem_cons_self r rs)
          have hns : ref ∉ rs := fun hx => h (List.mem_cons_of_mem r hx)
          simp only [grant_each]
          rw [ih ss _ hns, gref_binding_grant_ne _ _ _ _ _ _ hne]

/-- After the shared binding loop, every (reference, segment) pair of the
zip is bound to the segment's frame under the given flags — provided the
references in the batch are distinct (the free pool holds distinct
references). -/
lemma grant_each_zip (refs : List Nat) (segs : List bus_dma_segment_t)
    (domid flags : Nat) (g : gnttab_state) (hnd : refs.Nodup) :
    ∀ p ∈ refs.zip segs,
      gref_binding (grant_each refs segs domid flags g) p.1 =
        some ⟨domid, atop p.2.ds_addr, flags⟩ := by
  induction refs generalizing segs g with
  | nil => intro p hp; simp [List.zip] at hp
  | cons r rs ih =>
      cases segs with
      | nil => intro p hp; simp at hp
      | cons s ss =>
          intro p hp
          rcases List.mem_cons.mp hp with hph | hpt
          · subst hph
            have hr : r ∉ rs := (List.nodup_cons.mp hnd).1
            simp only [grant_each]
            rw [grant_each_not_mem rs ss _ _ _ _ hr]
            exact gref_binding_grant_eq _ _ _ _ _
          · exact ih ss _ (List.nodup_cons.mp hnd).2 p hpt

lemma gref_binding_end_references_mem (refs : List Nat) (g : gnttab_state)
    (r : Nat) (h : r ∈ refs) :
    gref_binding (gnttab_end_foreign_access_references refs g) r = none := by
  simp [gref_binding, gnttab_end_foreign_access_references, h]

lemma gref_binding_end_fold (l : List Nat) (g : gnttab_state) (r : Nat) :
    gref_binding
      (l.foldl (fun gs x => gnttab_end_foreign_access_ref x gs) g) r =
      if r ∈ l then none else gref_binding g r := by
  induction l generalizing g with
  | nil => simp
  | cons a as ih =>
      simp only [List.foldl_cons, ih, List.mem_cons]
      by_cases hr : r ∈ as
      · simp [hr]
      · by_cases ha : r = a <;>
          simp [hr, ha, gref_binding, gnttab_end_foreign_access_ref]

end GnttabLemmas

section LoadLemmas

/-- Model: `op` is one of the three real load variants carrying a successful
translation of `segs`. -/
def is_sync_load (op : load_op) (segs : List bus_dma_segment_t) : Prop :=
  op = .load_ma (.ok segs) ∨ op = .load_phys (.ok segs) ∨
    op = .load_buffer (.ok segs)

instance (op : load_op) (segs : List bus_dma_segment_t) :
    Decidable (is_sync_load op segs) := by
  unfold is_sync_load
  infer_instance

/-- Synchronous success path of `xen_load_helper` for a non-preallocated
idle map: the cursor delta becomes `nrefs`, a batch of that size is
claimed off the free pool into `refs`, and the map becomes loaded. -/
lemma load_helper_sync_success (xentag : bus_dma_tag_xen)
    (m : bus_dmamap_xen) (op : load_op) (op_flags segp0 : Nat)
    (g : gnttab_state) (segs : List bus_dma_segment_t)
    (hop : is_sync_load op segs)
    (hld : m.loaded = false) (hpre : m.preallocated = false)
    (hpool : segs.length ≤ g.free.length) :
    xen_load_helper xentag m op op_flags segp0 true true g =
      .ret 0
        { m with gnttab_flags := op_flags >>> BUS_DMA_XEN_GNTTAB_FLAGS_SHIFT,
                 nrefs := segs.length,
                 refs := some (g.free.take segs.length),
                 loaded := true }
        { g with free := g.free.drop segs.length } false false := by
  rcases hop with h | h | h <;> subst h <;>
    simp [xen_load_helper, hld, hpre, gnttab_alloc_grant_references, hpool,
      Nat.add_sub_cancel_left]

/-- Grant-pool exhaustion with a caller that did not opt into deferred
semantics: the just-allocated `refs` array is freed back to `NULL`, the
parent map is unloaded, the error is returned synchronously, and neither
the grant table nor the notification machinery is touched. -/
lemma load_helper_exhausted_nowait (xentag : bus_dma_tag_xen)
    (m : bus_dmamap_xen) (op : load_op) (op_flags segp0 : Nat)
    (g : gnttab_state) (segs : List bus_dma_segment_t)
    (hop : is_sync_load op segs)
    (hld : m.loaded = false) (hpre : m.preallocated = false)
    (hsl : m.sleepable = false)
    (hpool : g.free.length < segs.length) :
    xen_load_helper xentag m op op_flags segp0 true true g =
      .ret ENOSPC
        { m with gnttab_flags := op_flags >>> BUS_DMA_XEN_GNTTAB_FLAGS_SHIFT,
                 nrefs := segs.length,
                 refs := none }
        g true false := by
  have hnle : ¬ segs.length ≤ g.free.length := by omega
  rcases hop with h | h | h <;> subst h <;>
    simp [xen_load_helper, hld, hpre, hsl, gnttab_alloc_grant_references,
      hnle, Nat.add_sub_cancel_left]

/-- Grant-pool exhaustion with a deferred-tolerant caller and no snapshot
yet: the segment array is snapshotted into `temp_segs`, the free-callback
notification is armed, and `EINPROGRESS` is returned with the grant table
untouched. -/
lemma load_helper_exhausted_sleepable (xentag : bus_dma_tag_xen)
    (m : bus_dmamap_xen) (op : load_op) (op_flags segp0 : Nat)
    (g : gnttab_state) (segs : List bus_dma_segment_t)
    (hop : is_sync_load op segs)
    (hld : m.loaded = false) (hpre : m.preallocated = false)
    (hsl : m.sleepable = true) (htmp : m.temp_segs = none)
    (hpool : g.free.length < segs.length) :
    xen_load_helper xentag m op op_flags segp0 true true g =
      .ret EINPROGRESS
        { m with gnttab_flags := op_flags >>> BUS_DMA_XEN_GNTTAB_FLAGS_SHIFT,
                 nrefs := segs.length,
                 refs := some (List.replicate segs.length 0),
                 temp_segs := some segs }
        g false true := by
  have hnle : ¬ segs.length ≤ g.free.length := by omega
  rcases hop with h | h | h <;> subst h <;>
    simp [xen_load_helper, hld, hpre, hsl, htmp,
      gnttab_alloc_grant_references, hnle, Nat.add_sub_cancel_left,
      List.take_length]

/-- Load on a preallocated idle map: no grant allocation is attempted —
the result carries the grant table unchanged, the reference array is the
pre-claimed one, and only `nrefs` and the decoded access flags change.
Note the `loaded` flag is left `false` by this early-return path. -/
lemma load_helper_prealloc (xentag : bus_dma_tag_xen)
    (m : bus_dmamap_xen) (op : load_op) (op_flags segp0 : Nat)
    (mr mt : Bool) (g : gnttab_state) (segs : List bus_dma_segment_t)
    (hop : is_sync_load op segs)
    (hld : m.loaded = false) (hpre : m.preallocated = true) :
    xen_load_helper xentag m op op_flags segp0 mr mt g =
      .ret 0
        { m with gnttab_flags := op_flags >>> BUS_DMA_XEN_GNTTAB_FLAGS_SHIFT,
                 nrefs := segs.length }
        g false false := by
  rcases hop with h | h | h <;> subst h <;>
    simp [xen_load_helper, hld, hpre, Nat.add_sub_cancel_left]

/-- Predicate: `op` is one of the three real load variants whose
translation fails with errno `e`. -/
def is_err_load (op : load_op) (e : Nat) : Prop :=
  op = .load_ma (.err e) ∨ op = .load_phys (.err e) ∨
    op = .load_buffer (.err e)

instance (op : load_op) (e : Nat) : Decidable (is_err_load op e) := by
  unfold is_err_load
  infer_instance

/-- Translator-failure path of `xen_load_helper`: whether the error is
`EINPROGRESS` (deferred translation) or a real failure, the returned map
is the entry map with only the access flags decoded — in particular
`refs` and `loaded` are untouched. -/
lemma load_helper_translate_err (xentag : bus_dma_tag_xen)
    (m : bus_dmamap_xen) (op : load_op) (op_flags segp0 e : Nat)
    (g : gnttab_state) (hop : is_err_load op e) (hld : m.loaded = false) :
    lr_map (xen_load_helper xentag m op op_flags segp0 true true g) =
      some { m with
             gnttab_flags := op_flags >>> BUS_DMA_XEN_GNTTAB_FLAGS_SHIFT } := by
  by_cases he : e = EINPROGRESS <;>
    rcases hop with h | h | h <;> subst h <;>
      simp [xen_load_helper, hld, he, lr_map]

/-- Successful completion splits into the unchanged parent segment array
and the binding loop over the map's current references. -/
lemma complete_parts (xentag : bus_dma_tag_xen) (m1 : bus_dmamap_xen)
    (segs : List bus_dma_segment_t) (g : gnttab_state) :
    (xen_bus_dmamap_complete xentag m1 segs 0 g).1 = segs ∧
    (xen_bus_dmamap_complete xentag m1 segs 0 g).2 =
      grant_each ((m1.refs.getD []).take m1.nrefs) (segs.take m1.nrefs)
        xentag.domid m1.gnttab_flags g := by
  simp [xen_bus_dmamap_complete]

/-- Firing of the armed free callback on a map holding a snapshot, once
the pool holds enough free references: the claimed batch lands in `refs`,
each reference is bound to its snapshotted segment's frame, the map
becomes loaded, and the snapshot is released. -/
lemma free_callback_fires (xentag : bus_dma_tag_xen) (m : bus_dmamap_xen)
    (g2 : gnttab_state) (ss : List bus_dma_segment_t)
    (htmp : m.temp_segs = some ss) (hpool : m.nrefs ≤ g2.free.length) :
    xen_gnttab_free_callback xentag m g2 =
      some { m := { m with refs := some (g2.free.take m.nrefs),
                           loaded := true, temp_segs := none },
             g := grant_each (g2.free.take m.nrefs) ss xentag.domid
                    m.gnttab_flags { g2 with free := g2.free.drop m.nrefs },
             callback_segs := ss, callback_nseg := m.nrefs,
             callback_error := 0, callback_count := 1 } := by
  simp [xen_gnttab_free_callback, gnttab_alloc_grant_references, hpool,
    htmp]

lemma take_ne_nil {α : Type} (l : List α) (n : Nat) (hn : n ≠ 0)
    (hl : n ≤ l.length) : l.take n ≠ [] := by
  intro h
  have hlen := congrArg List.length h
  rw [List.length_take] at hlen
  simp only [List.length_nil] at hlen
  omega

end LoadLemmas

section Fixtures

/-- A tag for domain 7 with at most 4 segments. -/
def tag74 : bus_dma_tag_xen := { max_segments := 4, domid := 7 }

/-- An exhausted grant pool. -/
def pool0 : gnttab_state := { free := [], bound := fun _ => none }

/-- A grant pool with a single free reference. -/
def pool1 : gnttab_state := { free := [5], bound := fun _ => none }

/-- A grant pool with three free references. -/
def pool3 : gnttab_state := { free := [5, 6, 7], bound := fun _ => none }

/-- A grant pool with four free references. -/
def pool4 : gnttab_state := { free := [5, 6, 7, 8], bound := fun _ => none }

/-- A one-page translated segment at address 8192 (frame 2). -/
def seg1 : List bus_dma_segment_t := [{ ds_addr := 8192, ds_len := 4096 }]

/-- Two one-page translated segments. -/
def segs2 : List bus_dma_segment_t :=
  [{ ds_addr := 4096, ds_len := 4096 }, { ds_addr := 8192, ds_len := 4096 }]

end Fixtures

/-- C9: tag creation with a maximum segment size above one page is rejected
synchronously with `EINVAL` before the out-parameter is written and before
either delegated tag creation runs; otherwise (with the delegated
creations succeeding) it stores and returns a fresh tag handle carrying
the decoded domain id. -/
theorem C9_tag_create_maxsegsz (nsegments maxsegsz flags e : Nat) :
    (maxsegsz > PAGE_SIZE →
      xen_bus_dma_tag_create nsegments maxsegsz flags true true e =
        { error := EINVAL, written := none, calls := [] }) ∧
    (maxsegsz ≤ PAGE_SIZE →
      xen_bus_dma_tag_create nsegments maxsegsz flags true true e =
        { error := 0,
          written := some (some { max_segments := nsegments,
                                  domid := flags >>> BUS_DMA_XEN_DOMID_SHIFT }),
          calls := [.common_create, .parent_create] }) := by
  constructor
  · intro h
    simp [xen_bus_dma_tag_create, h]
  · intro h
    simp [xen_bus_dma_tag_create, Nat.not_lt.mpr h]

/-- Witness for C9 at `maxsegsz = 8192` (rejected) and `maxsegsz = 4096`
(accepted). -/
theorem C9_tag_create_maxsegsz_witness :
    ((8192 : Nat) > PAGE_SIZE ∧
      xen_bus_dma_tag_create 4 8192 0 true true 12 =
        { error := EINVAL, written := none, calls := [] }) ∧
    ((4096 : Nat) ≤ PAGE_SIZE ∧
      xen_bus_dma_tag_create 4 4096 0 true true 12 =
        { error := 0,
          written := some (some { max_segments := 4,
                                  domid := 0 >>> BUS_DMA_XEN_DOMID_SHIFT }),
          calls := [.common_create, .parent_create] }) :=
  ⟨⟨by decide, (C9_tag_create_maxsegsz 4 8192 0 12).1 (by decide)⟩,
   ⟨by decide, (C9_tag_create_maxsegsz 4 4096 0 12).2 (by decide)⟩⟩

/-- C10: `xen_get_dma_tag` passes `BUS_SPACE_MAXADDR` as the maximum
segment size; this exceeds one page, so `xen_bus_dma_tag_create` returns
`EINVAL` on the early check before ever writing the out-parameter, and
`xen_get_dma_tag` returns the uninitialized local value unchanged. -/
theorem C10_get_dma_tag_uninitialized (uninit : Option bus_dma_tag_xen)
    (c p : Bool) (e : Nat) :
    xen_get_dma_tag uninit c p e = uninit ∧
    xen_bus_dma_tag_create BUS_SPACE_UNRESTRICTED BUS_SPACE_MAXADDR
        BUSDMA_XEN_TAG_INIT c p e =
      { error := EINVAL, written := none, calls := [] } ∧
    BUS_SPACE_MAXADDR > PAGE_SIZE := by
  have h : BUS_SPACE_MAXADDR > PAGE_SIZE := by decide
  refine ⟨?_, ?_, h⟩
  · simp [xen_get_dma_tag, xen_bus_dma_tag_create, h]
  · simp [xen_bus_dma_tag_create, h]

/-- C4: a non-deferred (non-sleepable) load that hits grant-pool
exhaustion frees the just-allocated reference array (the map's `refs`
pointer ends `NULL`), unloads the underlying translated mapping, and
returns the allocator's error synchronously; the grant table is returned
unchanged and no notification is armed. -/
theorem C4_nowait_exhaustion_unwinds (xentag : bus_dma_tag_xen)
    (m : bus_dmamap_xen) (op : load_op) (op_flags segp0 : Nat)
    (g : gnttab_state) (segs : List bus_dma_segment_t)
    (hop : is_sync_load op segs)
    (hld : m.loaded = false) (hpre : m.preallocated = false)
    (hsl : m.sleepable = false)
    (hpool : g.free.length < segs.length) :
    xen_load_helper xentag m op op_flags segp0 true true g =
      .ret ENOSPC
        { m with gnttab_flags := op_flags >>> BUS_DMA_XEN_GNTTAB_FLAGS_SHIFT,
                 nrefs := segs.length,
                 refs := none }
        g true false ∧ ENOSPC ≠ 0 :=
  ⟨load_helper_exhausted_nowait xentag m op op_flags segp0 g segs hop hld
      hpre hsl hpool, by decide⟩

/-- Witness for C4: a two-segment load against a pool with one free
reference, on an idle non-sleepable map. -/
theorem C4_nowait_exhaustion_unwinds_witness :
    is_sync_load (.load_phys (.ok segs2)) segs2 ∧
    zeroed_map.loaded = false ∧
    zeroed_map.preallocated = false ∧
    zeroed_map.sleepable = false ∧
    pool1.free.length < segs2.length ∧
    (xen_load_helper tag74 zeroed_map (.load_phys (.ok segs2)) 0 0 true true
        pool1 =
      .ret ENOSPC
        { zeroed_map with
            gnttab_flags := 0 >>> BUS_DMA_XEN_GNTTAB_FLAGS_SHIFT,
            nrefs := segs2.length,
            refs := none }
        pool1 true false ∧ ENOSPC ≠ 0) :=
  ⟨by decide, by decide, by decide, by decide, by decide,
   C4_nowait_exhaustion_unwinds tag74 zeroed_map (.load_phys (.ok segs2))
     0 0 pool1 segs2 (Or.inr (Or.inl rfl)) (by decide) (by decide)
     (by decide) (by decide)⟩

lemma end_fold_free (l : List Nat) (g : gnttab_state) :
    (l.foldl (fun gs x => gnttab_end_foreign_access_ref x gs) g).free =
      g.free := by
  induction l generalizing g with
  | nil => rfl
  | cons a as ih =>
      rw [List.foldl_cons, ih]
      rfl

/-- C5: pre-allocation lifecycle.  (a) Creating a map with
`BUS_DMA_XEN_PREALLOC_REFS` claims exactly `max_segments` references off
the free pool at creation time; (b) a load on such a map performs no
grant allocation (the grant table is untouched and the pre-claimed array
kept), leaving binding to the completion step; (c) destruction revokes
and frees the pre-claimed batch, while unload only ends foreign access on
the currently-used references and never frees the batch. -/
theorem C5_prealloc_lifecycle (xentag : bus_dma_tag_xen) (flags : Nat)
    (g : gnttab_state)
    (hfl : flags &&& BUS_DMA_XEN_PREALLOC_REFS ≠ 0)
    (hpool : xentag.max_segments ≤ g.free.length) :
    (xen_bus_dmamap_create xentag flags true true g =
      .ok ({ zeroed_map with refs := some (g.free.take xentag.max_segments),
                             preallocated := true },
           { g with free := g.free.drop xentag.max_segments }) ∧
      (g.free.take xentag.max_segments).length = xentag.max_segments) ∧
    (∀ (m : bus_dmamap_xen) (op : load_op) (op_flags segp0 : Nat)
       (mr mt : Bool) (g2 : gnttab_state) (segs : List bus_dma_segment_t),
       is_sync_load op segs → m.loaded = false → m.preallocated = true →
       xen_load_helper xentag m op op_flags segp0 mr mt g2 =
         .ret 0
           { m with
               gnttab_flags := op_flags >>> BUS_DMA_XEN_GNTTAB_FLAGS_SHIFT,
               nrefs := segs.length }
           g2 false false) ∧
    (∀ (m : bus_dmamap_xen) (g3 : gnttab_state), m.preallocated = true →
       xen_bus_dmamap_destroy xentag m g3 =
         some (gnttab_end_foreign_access_references
                 ((m.refs.getD []).take xentag.max_segments) g3,
               [.parent_destroy,
                .end_access_references
                  ((m.refs.getD []).take xentag.max_segments),
                .free_refs_array])) ∧
    (∀ (m : bus_dmamap_xen) (g3 : gnttab_state), m.preallocated = true →
       m.temp_segs = none →
       xen_bus_dmamap_unload m g3 =
         some ({ m with nrefs := 0, sleepable := false, loaded := false },
               ((m.refs.getD []).take m.nrefs).foldl
                 (fun gs r => gnttab_end_foreign_access_ref r gs) g3,
               ((m.refs.getD []).take m.nrefs).map .end_access ++
                 [.parent_unload]) ∧
       (((m.refs.getD []).take m.nrefs).foldl
           (fun gs r => gnttab_end_foreign_access_ref r gs) g3).free =
         g3.free) := by
  refine ⟨⟨?_, ?_⟩, ?_, ?_, ?_⟩
  · simp [xen_bus_dmamap_create, hfl, gnttab_alloc_grant_references, hpool]
  · simp [List.length_take, Nat.min_eq_left hpool]
  · intro m op op_flags segp0 mr mt g2 segs hop hld hpre
    exact load_helper_prealloc xentag m op op_flags segp0 mr mt g2 segs hop
      hld hpre
  · intro m g3 hpre
    simp [xen_bus_dmamap_destroy, hpre]
  · intro m g3 hpre htmp
    refine ⟨?_, end_fold_free _ _⟩
    simp [xen_bus_dmamap_unload, htmp, hpre]

/-- Witness for C5: a four-segment tag against a pool of four free
references, with a one-segment load on the created map. -/
theorem C5_prealloc_lifecycle_witness :
    (BUS_DMA_XEN_PREALLOC_REFS &&& BUS_DMA_XEN_PREALLOC_REFS ≠ 0) ∧
    tag74.max_segments ≤ pool4.free.length ∧
    ((xen_bus_dmamap_create tag74 BUS_DMA_XEN_PREALLOC_REFS true true pool4 =
        .ok ({ zeroed_map with
                 refs := some (pool4.free.take tag74.max_segments),
                 preallocated := true },
             { pool4 with free := pool4.free.drop tag74.max_segments }) ∧
      (pool4.free.take tag74.max_segments).length = tag74.max_segments) ∧
     (∀ (m : bus_dmamap_xen) (op : load_op) (op_flags segp0 : Nat)
        (mr mt : Bool) (g2 : gnttab_state) (segs : List bus_dma_segment_t),
        is_sync_load op segs → m.loaded = false → m.preallocated = true →
        xen_load_helper tag74 m op op_flags segp0 mr mt g2 =
          .ret 0
            { m with
                gnttab_flags := op_flags >>> BUS_DMA_XEN_GNTTAB_FLAGS_SHIFT,
                nrefs := segs.length }
            g2 false false) ∧
     (∀ (m : bus_dmamap_xen) (g3 : gnttab_state), m.preallocated = true →
        xen_bus_dmamap_destroy tag74 m g3 =
          some (gnttab_end_foreign_access_references
                  ((m.refs.getD []).take tag74.max_segments) g3,
                [.parent_destroy,
                 .end_access_references
                   ((m.refs.getD []).take tag74.max_segments),
                 .free_refs_array])) ∧
     (∀ (m : bus_dmamap_xen) (g3 : gnttab_state), m.preallocated = true →
        m.temp_segs = none →
        xen_bus_dmamap_unload m g3 =
          some ({ m with nrefs := 0, sleepable := false, loaded := false },
                ((m.refs.getD []).take m.nrefs).foldl
                  (fun gs r => gnttab_end_foreign_access_ref r gs) g3,
                ((m.refs.getD []).take m.nrefs).map .end_access ++
                  [.parent_unload]) ∧
        (((m.refs.getD []).take m.nrefs).foldl
            (fun gs r => gnttab_end_foreign_access_ref r gs) g3).free =
          g3.free)) :=
  ⟨by decide, by decide,
   C5_prealloc_lifecycle tag74 BUS_DMA_XEN_PREALLOC_REFS pool4 (by decide)
     (by decide)⟩

/-- The map produced by creating a map on `tag74` with
`BUS_DMA_XEN_PREALLOC_REFS` against `pool4`. -/
def mapP : bus_dmamap_xen :=
  { zeroed_map with refs := some [5, 6, 7, 8], preallocated := true }

/-- Model: `mapP` after a successful one-segment load (note `loaded` stays
`false` on the preallocated early-return path). -/
def mapP1 : bus_dmamap_xen := { mapP with nrefs := 1 }

/-- A non-preallocated map holding one bound reference after a one-segment
load. -/
def map1 : bus_dmamap_xen :=
  { zeroed_map with refs := some [5], nrefs := 1, loaded := true }

/-- A sleepable map left pending by a two-segment deferred load (the
state returned with `EINPROGRESS`): `refs` already allocated, snapshot
taken, no load completed. -/
def mapD : bus_dmamap_xen :=
  { zeroed_map with sleepable := true, nrefs := 2, refs := some [0, 0],
                    temp_segs := some segs2 }

/-- C6 counterexample: the claimed iff-invariant fails in two reachable
states.  First, a map created in pre-allocation mode has a non-empty
reference array although no load has completed on it.  Second, a
deferred-tolerant load that hit grant exhaustion and returned
`EINPROGRESS` leaves the reference array already allocated while no load
has completed. -/
theorem C6_inv_counterexample :
    (create_map_part (xen_bus_dmamap_create tag74 BUS_DMA_XEN_PREALLOC_REFS
        true true pool4) = some mapP ∧
      mapP.refs ≠ none ∧ mapP.refs ≠ some [] ∧ mapP.loaded = false) ∧
    (lr_error (xen_load_helper tag74 { zeroed_map with sleepable := true }
        (.load_phys (.ok segs2)) 0 0 true true pool1) = some EINPROGRESS ∧
      lr_map (xen_load_helper tag74 { zeroed_map with sleepable := true }
        (.load_phys (.ok segs2)) 0 0 true true pool1) = some mapD ∧
      mapD.refs ≠ none ∧ mapD.loaded = false) := by
  decide

/-- C6 (amended): for every map created without the pre-allocation flag,
at every point between operations at which no deferred load is pending,
the grant-reference array is non-empty if and only if a load has
completed on that map and has not yet been unloaded; creation establishes
the invariant, every load outcome preserves it — synchronous success,
grant-exhaustion failure, translator failure or deferral, and completion
of a deferred retry — and unload preserves it; while a deferred grant
allocation is pending the array is already allocated although no load has
completed.  A map created with the pre-allocation flag instead holds its
non-empty pre-claimed array from creation, across loads and unloads,
until destruction. -/
theorem C6_amended_refs_inv (xentag : bus_dma_tag_xen) :
    (∀ (flags : Nat) (g : gnttab_state),
       flags &&& BUS_DMA_XEN_PREALLOC_REFS = 0 →
       xen_bus_dmamap_create xentag flags true true g =
         .ok (zeroed_map, g) ∧
       zeroed_map.refs = none ∧ zeroed_map.loaded = false) ∧
    (∀ (m : bus_dmamap_xen) (op : load_op) (op_flags segp0 : Nat)
       (g : gnttab_state) (segs : List bus_dma_segment_t),
       is_sync_load op segs → m.loaded = false → m.preallocated = false →
       segs ≠ [] → segs.length ≤ g.free.length →
       ∃ m1 g1, xen_load_helper xentag m op op_flags segp0 true true g =
           .ret 0 m1 g1 false false ∧
         m1.refs ≠ none ∧ m1.refs ≠ some [] ∧ m1.loaded = true) ∧
    (∀ (m : bus_dmamap_xen) (op : load_op) (op_flags segp0 : Nat)
       (g : gnttab_state) (segs : List bus_dma_segment_t),
       is_sync_load op segs → m.loaded = false → m.preallocated = false →
       m.sleepable = false → g.free.length < segs.length →
       ∃ m1, xen_load_helper xentag m op op_flags segp0 true true g =
           .ret ENOSPC m1 g true false ∧
         m1.refs = none ∧ m1.loaded = false) ∧
    (∀ (m : bus_dmamap_xen) (op : load_op) (op_flags segp0 e : Nat)
       (g : gnttab_state),
       is_err_load op e → m.loaded = false →
       lr_map (xen_load_helper xentag m op op_flags segp0 true true g) =
         some { m with
                gnttab_flags :=
                  op_flags >>> BUS_DMA_XEN_GNTTAB_FLAGS_SHIFT } ∧
       ({ m with gnttab_flags :=
            op_flags >>> BUS_DMA_XEN_GNTTAB_FLAGS_SHIFT } :
          bus_dmamap_xen).refs = m.refs ∧
       ({ m with gnttab_flags :=
            op_flags >>> BUS_DMA_XEN_GNTTAB_FLAGS_SHIFT } :
          bus_dmamap_xen).loaded = false) ∧
    (∀ (m : bus_dmamap_xen) (op : load_op) (op_flags segp0 : Nat)
       (g : gnttab_state) (segs : List bus_dma_segment_t),
       is_sync_load op segs → m.loaded = false → m.preallocated = false →
       m.sleepable = true → m.temp_segs = none →
       g.free.length < segs.length →
       ∃ m1, xen_load_helper xentag m op op_flags segp0 true true g =
           .ret EINPROGRESS m1 g false true ∧
         m1.refs ≠ none ∧ m1.loaded = false) ∧
    (∀ (m : bus_dmamap_xen) (g2 : gnttab_state)
       (ss : List bus_dma_segment_t),
       m.temp_segs = some ss → m.nrefs ≠ 0 → m.nrefs ≤ g2.free.length →
       ∃ r, xen_gnttab_free_callback xentag m g2 = some r ∧
         r.m.refs ≠ none ∧ r.m.refs ≠ some [] ∧ r.m.loaded = true) ∧
    (∀ (m : bus_dmamap_xen) (g : gnttab_state),
       m.preallocated = false → m.temp_segs = none →
       ∃ m1 g1 ev, xen_bus_dmamap_unload m g = some (m1, g1, ev) ∧
         m1.refs = none ∧ m1.loaded = false) ∧
    (∀ (flags : Nat) (g : gnttab_state),
       flags &&& BUS_DMA_XEN_PREALLOC_REFS ≠ 0 →
       0 < xentag.max_segments → xentag.max_segments ≤ g.free.length →
       ∃ mp gp, xen_bus_dmamap_create xentag flags true true g =
           .ok (mp, gp) ∧
         mp.refs = some (g.free.take xentag.max_segments) ∧
         mp.refs ≠ some [] ∧ mp.loaded = false ∧ mp.preallocated = true) ∧
    (∀ (m : bus_dmamap_xen) (op : load_op) (op_flags segp0 : Nat)
       (mr mt : Bool) (g : gnttab_state) (segs : List bus_dma_segment_t),
       is_sync_load op segs → m.loaded = false → m.preallocated = true →
       ∃ m1, xen_load_helper xentag m op op_flags segp0 mr mt g =
           .ret 0 m1 g false false ∧ m1.refs = m.refs) ∧
    (∀ (m : bus_dmamap_xen) (g : gnttab_state),
       m.preallocated = true → m.temp_segs = none →
       ∃ m1 g1 ev, xen_bus_dmamap_unload m g = some (m1, g1, ev) ∧
         m1.refs = m.refs) := by
  refine ⟨?_, ?_, ?_, ?_, ?_, ?_, ?_, ?_, ?_, ?_⟩
  · intro flags g hfl
    refine ⟨?_, rfl, rfl⟩
    simp [xen_bus_dmamap_create, hfl]
  · intro m op op_flags segp0 g segs hop hld hpre hne hpool
    refine ⟨_, _,
      load_helper_sync_success xentag m op op_flags segp0 g segs hop hld
        hpre hpool, by simp, ?_, rfl⟩
    have hpos : segs.length ≠ 0 := by
      intro hz
      exact hne (List.eq_nil_of_length_eq_zero hz)
    simp only [ne_eq, Option.some.injEq]
    exact take_ne_nil g.free segs.length hpos hpool
  · intro m op op_flags segp0 g segs hop hld hpre hsl hpool
    exact ⟨_, load_helper_exhausted_nowait xentag m op op_flags segp0 g
      segs hop hld hpre hsl hpool, rfl, hld⟩
  · intro m op op_flags segp0 e g hop hld
    exact ⟨load_helper_translate_err xentag m op op_flags segp0 e g hop
      hld, rfl, hld⟩
  · intro m op op_flags segp0 g segs hop hld hpre hsl htmp hpool
    exact ⟨_, load_helper_exhausted_sleepable xentag m op op_flags segp0 g
      segs hop hld hpre hsl htmp hpool, by simp, hld⟩
  · intro m g2 ss htmp hn0 hpool
    refine ⟨_, free_callback_fires xentag m g2 ss htmp hpool, by simp,
      ?_, rfl⟩
    simp only [ne_eq, Option.some.injEq]
    exact take_ne_nil g2.free m.nrefs hn0 hpool
  · intro m g hpre htmp
    exact ⟨{ m with refs := none, nrefs := 0, sleepable := false,
                    loaded := false },
           gnttab_end_foreign_access_references
             ((m.refs.getD []).take m.nrefs) g,
           [.end_access_references ((m.refs.getD []).take m.nrefs),
            .free_refs_array, .parent_unload],
           by simp [xen_bus_dmamap_unload, htmp, hpre], rfl, rfl⟩
  · intro flags g hfl hn0 hpool
    refine ⟨{ zeroed_map with refs := some (g.free.take xentag.max_segments),
                              preallocated := true },
            { g with free := g.free.drop xentag.max_segments }, ?_, rfl,
            ?_, rfl, rfl⟩
    · simp [xen_bus_dmamap_create, hfl, gnttab_alloc_grant_references,
        hpool]
    · simp only [ne_eq, Option.some.injEq]
      exact take_ne_nil g.free xentag.max_segments (by omega) hpool
  · intro m op op_flags segp0 mr mt g segs hop hld hpre
    exact ⟨_, load_helper_prealloc xentag m op op_flags segp0 mr mt g segs
      hop hld hpre, rfl⟩
  · intro m g hpre htmp
    exact ⟨{ m with nrefs := 0, sleepable := false, loaded := false },
           ((m.refs.getD []).take m.nrefs).foldl
             (fun gs r => gnttab_end_foreign_access_ref r gs) g,
           ((m.refs.getD []).take m.nrefs).map .end_access ++
             [.parent_unload],
           by simp [xen_bus_dmamap_unload, htmp, hpre], rfl⟩

/-- Witness for the amended C6, exercising every conjunct: plain creation,
a one-segment successful load, a failing non-deferred load, a failing
translation, a pending deferred load, the deferred completion on `mapD`,
an unload of `map1`, and the preallocated creation/load/unload chain. -/
theorem C6_amended_refs_inv_witness :
    ((0 : Nat) &&& BUS_DMA_XEN_PREALLOC_REFS = 0 ∧
      (xen_bus_dmamap_create tag74 0 true true pool3 =
          .ok (zeroed_map, pool3) ∧
        zeroed_map.refs = none ∧ zeroed_map.loaded = false)) ∧
    (is_sync_load (.load_phys (.ok seg1)) seg1 ∧ seg1 ≠ [] ∧
      seg1.length ≤ pool3.free.length ∧
      (∃ m1 g1, xen_load_helper tag74 zeroed_map (.load_phys (.ok seg1)) 0
          0 true true pool3 = .ret 0 m1 g1 false false ∧
        m1.refs ≠ none ∧ m1.refs ≠ some [] ∧ m1.loaded = true)) ∧
    (zeroed_map.sleepable = false ∧ pool1.free.length < segs2.length ∧
      (∃ m1, xen_load_helper tag74 zeroed_map (.load_phys (.ok segs2)) 0 0
          true true pool1 = .ret ENOSPC m1 pool1 true false ∧
        m1.refs = none ∧ m1.loaded = false)) ∧
    (is_err_load (.load_phys (.err 5)) 5 ∧
      (lr_map (xen_load_helper tag74 zeroed_map (.load_phys (.err 5)) 0 0
          true true pool0) =
        some { zeroed_map with
               gnttab_flags := 0 >>> BUS_DMA_XEN_GNTTAB_FLAGS_SHIFT } ∧
       ({ zeroed_map with
          gnttab_flags := 0 >>> BUS_DMA_XEN_GNTTAB_FLAGS_SHIFT } :
          bus_dmamap_xen).refs = zeroed_map.refs ∧
       ({ zeroed_map with
          gnttab_flags := 0 >>> BUS_DMA_XEN_GNTTAB_FLAGS_SHIFT } :
          bus_dmamap_xen).loaded = false)) ∧
    (({ zeroed_map with sleepable := true } :
        bus_dmamap_xen).sleepable = true ∧
      ({ zeroed_map with sleepable := true } :
        bus_dmamap_xen).temp_segs = none ∧
      (∃ m1, xen_load_helper tag74 { zeroed_map with sleepable := true }
          (.load_phys (.ok segs2)) 0 0 true true pool1 =
          .ret EINPROGRESS m1 pool1 false true ∧
        m1.refs ≠ none ∧ m1.loaded = false)) ∧
    (mapD.temp_segs = some segs2 ∧ mapD.nrefs ≠ 0 ∧
      mapD.nrefs ≤ pool4.free.length ∧
      (∃ r, xen_gnttab_free_callback tag74 mapD pool4 = some r ∧
        r.m.refs ≠ none ∧ r.m.refs ≠ some [] ∧ r.m.loaded = true)) ∧
    (map1.preallocated = false ∧ map1.temp_segs = none ∧
      (∃ m1 g1 ev, xen_bus_dmamap_unload map1 pool0 = some (m1, g1, ev) ∧
        m1.refs = none ∧ m1.loaded = false)) ∧
    (BUS_DMA_XEN_PREALLOC_REFS &&& BUS_DMA_XEN_PREALLOC_REFS ≠ 0 ∧
      0 < tag74.max_segments ∧ tag74.max_segments ≤ pool4.free.length ∧
      (∃ mp gp, xen_bus_dmamap_create tag74 BUS_DMA_XEN_PREALLOC_REFS true
          true pool4 = .ok (mp, gp) ∧
        mp.refs = some (pool4.free.take tag74.max_segments) ∧
        mp.refs ≠ some [] ∧ mp.loaded = false ∧ mp.preallocated = true)) ∧
    (mapP.loaded = false ∧ mapP.preallocated = true ∧
      (∃ m1, xen_load_helper tag74 mapP (.load_phys (.ok seg1)) 0 0 true
          true pool0 = .ret 0 m1 pool0 false false ∧
        m1.refs = mapP.refs)) ∧
    (mapP1.preallocated = true ∧ mapP1.temp_segs = none ∧
      (∃ m1 g1 ev, xen_bus_dmamap_unload mapP1 pool0 =
          some (m1, g1, ev) ∧ m1.refs = mapP1.refs)) :=
  ⟨⟨by decide, (C6_amended_refs_inv tag74).1 0 pool3 (by decide)⟩,
   ⟨by decide, by decide, by decide,
    (C6_amended_refs_inv tag74).2.1 zeroed_map (.load_phys (.ok seg1)) 0 0
      pool3 seg1 (by decide) (by decide) (by decide) (by decide)
      (by decide)⟩,
   ⟨by decide, by decide,
    (C6_amended_refs_inv tag74).2.2.1 zeroed_map (.load_phys (.ok segs2))
      0 0 pool1 segs2 (by decide) (by decide) (by decide) (by decide)
      (by decide)⟩,
   ⟨by decide,
    (C6_amended_refs_inv tag74).2.2.2.1 zeroed_map (.load_phys (.err 5))
      0 0 5 pool0 (by decide) (by decide)⟩,
   ⟨by decide, by decide,
    (C6_amended_refs_inv tag74).2.2.2.2.1
      { zeroed_map with sleepable := true } (.load_phys (.ok segs2)) 0 0
      pool1 segs2 (by decide) (by decide) (by decide) (by decide)
      (by decide) (by decide)⟩,
   ⟨by decide, by decide, by decide,
    (C6_amended_refs_inv tag74).2.2.2.2.2.1 mapD pool4 segs2 (by decide)
      (by decide) (by decide)⟩,
   ⟨by decide, by decide,
    (C6_amended_refs_inv tag74).2.2.2.2.2.2.1 map1 pool0 (by decide)
      (by decide)⟩,
   ⟨by decide, by decide, by decide,
    (C6_amended_refs_inv tag74).2.2.2.2.2.2.2.1 BUS_DMA_XEN_PREALLOC_REFS
      pool4 (by decide) (by decide) (by decide)⟩,
   ⟨by decide, by decide,
    (C6_amended_refs_inv tag74).2.2.2.2.2.2.2.2.1 mapP
      (.load_phys (.ok seg1)) 0 0 true true pool0 seg1 (by decide)
      (by decide) (by decide)⟩,
   ⟨by decide, by decide,
    (C6_amended_refs_inv tag74).2.2.2.2.2.2.2.2.2 mapP1 pool0 (by decide)
      (by decide)⟩⟩

/-- C7: the loaded-map panic guard does not fire for maps created in
pre-allocation mode.  A first successful load on `mapP` returns 0 but
leaves `loaded = false` (the preallocated early return skips the
`loaded = true` assignment), so a second load on the same still-loaded
map neither panics nor fails — it silently returns 0 again, contradicting
the documented fail-loudly contract. -/
theorem C7_prealloc_double_load_no_panic :
    lr_error (xen_load_helper tag74 mapP (.load_phys (.ok seg1)) 0 0 true
        true pool0) = some 0 ∧
    lr_map (xen_load_helper tag74 mapP (.load_phys (.ok seg1)) 0 0 true
        true pool0) = some mapP1 ∧
    mapP1.loaded = false ∧
    lr_is_fault (xen_load_helper tag74 mapP1 (.load_phys (.ok seg1)) 0 0
        true true pool0) = false ∧
    lr_error (xen_load_helper tag74 mapP1 (.load_phys (.ok seg1)) 0 0 true
        true pool0) = some 0 := by
  decide

/-- C8 counterexample: unloading a pre-allocation-mode map that has
completed a load does not release the reference array — the map ends
with its four pre-claimed references still present, not with an empty
array. -/
theorem C8_prealloc_unload_counterexample :
    unload_map_part (xen_bus_dmamap_unload mapP1 pool0) = some mapP ∧
    mapP.refs = some [5, 6, 7, 8] ∧
    mapP.refs ≠ none := by
  decide

/-- C8 (amended): for a non-preallocated loaded map, unload revokes every
currently-bound reference and returns it to the free pool, releases the
reference array (`refs` becomes `NULL`), resets `nrefs` to zero and the
`sleepable`/`loaded` flags to false, and delegates to the parent unload
last; a preallocated map instead only has foreign access ended on its
currently-used references and keeps its array for destruction. -/
theorem C8_amended_unload_teardown (m : bus_dmamap_xen) (g : gnttab_state)
    (l : List Nat) (htmp : m.temp_segs = none) :
    (m.preallocated = false → m.refs = some l → m.nrefs = l.length →
      xen_bus_dmamap_unload m g =
        some ({ m with refs := none, nrefs := 0, sleepable := false,
                       loaded := false },
              gnttab_end_foreign_access_references l g,
              [.end_access_references l, .free_refs_array,
               .parent_unload]) ∧
      (∀ r ∈ l,
        gref_binding (gnttab_end_foreign_access_references l g) r = none) ∧
      (gnttab_end_foreign_access_references l g).free = g.free ++ l) ∧
    (m.preallocated = true →
      ∃ g1, xen_bus_dmamap_unload m g =
          some ({ m with nrefs := 0, sleepable := false, loaded := false },
                g1,
                ((m.refs.getD []).take m.nrefs).map .end_access ++
                  [.parent_unload]) ∧
        (∀ r ∈ (m.refs.getD []).take m.nrefs, gref_binding g1 r = none) ∧
        ({ m with nrefs := 0, sleepable := false, loaded := false } :
            bus_dmamap_xen).refs = m.refs) := by
  constructor
  · intro hpre hrefs hn
    refine ⟨?_, fun r hr => gref_binding_end_references_mem l g r hr, rfl⟩
    simp [xen_bus_dmamap_unload, htmp, hpre, hrefs, hn, List.take_length]
  · intro hpre
    refine ⟨((m.refs.getD []).take m.nrefs).foldl
        (fun gs r => gnttab_end_foreign_access_ref r gs) g, ?_, ?_, rfl⟩
    · simp [xen_bus_dmamap_unload, htmp, hpre]
    · intro r hr
      rw [gref_binding_end_fold]
      simp [hr]

/-- Witness for the amended C8: unloading `map1` (one bound reference,
not preallocated) against an empty pool. -/
theorem C8_amended_unload_teardown_witness :
    map1.temp_segs = none ∧ map1.preallocated = false ∧
    map1.refs = some [5] ∧ map1.nrefs = [5].length ∧
    (xen_bus_dmamap_unload map1 pool0 =
        some ({ map1 with refs := none, nrefs := 0, sleepable := false,
                          loaded := false },
              gnttab_end_foreign_access_references [5] pool0,
              [.end_access_references [5], .free_refs_array,
               .parent_unload]) ∧
      (∀ r ∈ [5],
        gref_binding (gnttab_end_foreign_access_references [5] pool0) r =
          none) ∧
      (gnttab_end_foreign_access_references [5] pool0).free =
        pool0.free ++ [5]) :=
  ⟨by decide, by decide, by decide, by decide,
   (C8_amended_unload_teardown map1 pool0 [5] (by decide)).1 (by decide)
     (by decide) (by decide)⟩

/-- C1 counterexample: after a successful one-segment load and completion,
the segment handed to the callback still carries the translated address
8192, not the grant reference 5 that was claimed and bound for it — the
address field is never rewritten to the grant reference. -/
theorem C1_no_rewrite_counterexample :
    lr_map (xen_load_helper tag74 zeroed_map (.load_phys (.ok seg1)) 0 0
        true true pool1) = some map1 ∧
    map1.refs = some [5] ∧
    ((xen_bus_dmamap_complete tag74 map1 seg1 0 pool1).1.map
        (fun s => s.ds_addr)) = [8192] ∧
    (8192 : Nat) ≠ 5 := by
  decide

/-- C1 (amended): for every load that completes successfully —
synchronously on a plain or preallocated map, or after a deferred retry —
the DMA segments handed to the caller's completion callback keep their
translated addresses unchanged (the address field is not rewritten);
instead the grant reference bound for each segment is held in the map's
`refs` array, bound in the grant table to that segment's frame, and after
unload the references are revoked, leaving the segments' frames with no
grant association. -/
theorem C1_amended_grant_association (xentag : bus_dma_tag_xen) :
    (∀ (m : bus_dmamap_xen) (op : load_op) (op_flags segp0 : Nat)
       (g : gnttab_state) (segs : List bus_dma_segment_t),
       is_sync_load op segs → m.loaded = false → m.preallocated = false →
       m.temp_segs = none → segs.length ≤ g.free.length → g.free.Nodup →
       ∃ m1 g1,
         xen_load_helper xentag m op op_flags segp0 true true g =
           .ret 0 m1 g1 false false ∧
         m1.refs = some (g.free.take segs.length) ∧
         (xen_bus_dmamap_complete xentag m1 segs 0 g1).1 = segs ∧
         (∀ p ∈ (g.free.take segs.length).zip segs,
           gref_binding (xen_bus_dmamap_complete xentag m1 segs 0 g1).2 p.1 =
             some ⟨xentag.domid, atop p.2.ds_addr,
                   op_flags >>> BUS_DMA_XEN_GNTTAB_FLAGS_SHIFT⟩) ∧
         (∃ mu gu ev,
           xen_bus_dmamap_unload m1
               (xen_bus_dmamap_complete xentag m1 segs 0 g1).2 =
             some (mu, gu, ev) ∧
           mu.refs = none ∧
           ∀ r ∈ g.free.take segs.length, gref_binding gu r = none)) ∧
    (∀ (m : bus_dmamap_xen) (g2 : gnttab_state)
       (ss : List bus_dma_segment_t),
       m.temp_segs = some ss → m.nrefs = ss.length →
       m.preallocated = false → m.nrefs ≤ g2.free.length → g2.free.Nodup →
       ∃ r, xen_gnttab_free_callback xentag m g2 = some r ∧
         r.callback_segs = ss ∧
         r.m.refs = some (g2.free.take m.nrefs) ∧
         (∀ p ∈ (g2.free.take m.nrefs).zip ss,
           gref_binding r.g p.1 =
             some ⟨xentag.domid, atop p.2.ds_addr, m.gnttab_flags⟩) ∧
         (∃ mu gu ev,
           xen_bus_dmamap_unload r.m r.g = some (mu, gu, ev) ∧
           mu.refs = none ∧
           ∀ x ∈ g2.free.take m.nrefs, gref_binding gu x = none)) ∧
    (∀ (m : bus_dmamap_xen) (op : load_op) (op_flags segp0 : Nat)
       (mr mt : Bool) (g : gnttab_state) (segs : List bus_dma_segment_t)
       (l : List Nat),
       is_sync_load op segs → m.loaded = false → m.preallocated = true →
       m.temp_segs = none → m.refs = some l → l.Nodup →
       segs.length ≤ l.length →
       ∃ m1,
         xen_load_helper xentag m op op_flags segp0 mr mt g =
           .ret 0 m1 g false false ∧
         m1.refs = some l ∧
         (xen_bus_dmamap_complete xentag m1 segs 0 g).1 = segs ∧
         (∀ p ∈ (l.take segs.length).zip segs,
           gref_binding (xen_bus_dmamap_complete xentag m1 segs 0 g).2 p.1 =
             some ⟨xentag.domid, atop p.2.ds_addr,
                   op_flags >>> BUS_DMA_XEN_GNTTAB_FLAGS_SHIFT⟩) ∧
         (∃ mu gu ev,
           xen_bus_dmamap_unload m1
               (xen_bus_dmamap_complete xentag m1 segs 0 g).2 =
             some (mu, gu, ev) ∧
           ∀ x ∈ l.take segs.length, gref_binding gu x = none)) := by
  refine ⟨?_, ?_, ?_⟩
  · intro m op op_flags segp0 g segs hop hld hpre htmp hpool hnd
    have hblen : (g.free.take segs.length).length = segs.length := by
      rw [List.length_take]
      omega
    have hbtake :
        (g.free.take segs.length).take segs.length =
          g.free.take segs.length :=
      List.take_of_length_le (le_of_eq hblen)
    have hstake : segs.take segs.length = segs := List.take_length segs
    have hndb : (g.free.take segs.length).Nodup :=
      hnd.sublist (List.take_sublist segs.length g.free)
    refine ⟨{ m with
                gnttab_flags := op_flags >>> BUS_DMA_XEN_GNTTAB_FLAGS_SHIFT,
                nrefs := segs.length,
                refs := some (g.free.take segs.length),
                loaded := true },
            { g with free := g.free.drop segs.length },
            load_helper_sync_success xentag m op op_flags segp0 g segs hop
              hld hpre hpool,
            rfl, (complete_parts _ _ _ _).1, ?_, ?_⟩
    · have hcomp :
          (xen_bus_dmamap_complete xentag
            { m with
                gnttab_flags := op_flags >>> BUS_DMA_XEN_GNTTAB_FLAGS_SHIFT,
                nrefs := segs.length,
                refs := some (g.free.take segs.length),
                loaded := true } segs 0
            { g with free := g.free.drop segs.length }).2 =
          grant_each (g.free.take segs.length) segs xentag.domid
            (op_flags >>> BUS_DMA_XEN_GNTTAB_FLAGS_SHIFT)
            { g with free := g.free.drop segs.length } := by
        simp [xen_bus_dmamap_complete, hbtake, hstake]
      rw [hcomp]
      exact grant_each_zip (g.free.take segs.length) segs xentag.domid
        (op_flags >>> BUS_DMA_XEN_GNTTAB_FLAGS_SHIFT)
        { g with free := g.free.drop segs.length } hndb
    · refine ⟨{ m with
                  gnttab_flags :=
                    op_flags >>> BUS_DMA_XEN_GNTTAB_FLAGS_SHIFT,
                  nrefs := 0,
                  refs := none,
                  sleepable := false,
                  loaded := false },
              gnttab_end_foreign_access_references
                (g.free.take segs.length)
                (xen_bus_dmamap_complete xentag
                  { m with
                      gnttab_flags :=
                        op_flags >>> BUS_DMA_XEN_GNTTAB_FLAGS_SHIFT,
                      nrefs := segs.length,
                      refs := some (g.free.take segs.length),
                      loaded := true } segs 0
                  { g with free := g.free.drop segs.length }).2,
              [.end_access_references (g.free.take segs.length),
               .free_refs_array, .parent_unload], ?_, rfl, ?_⟩
      · simp [xen_bus_dmamap_unload, htmp, hpre, hbtake]
      · intro r hr
        exact gref_binding_end_references_mem _ _ r hr
  · intro m g2 ss htmp hn hpre hpool hnd
    have hbtake :
        (g2.free.take m.nrefs).take m.nrefs = g2.free.take m.nrefs := by
      rw [List.take_take, Nat.min_self]
    have hndb : (g2.free.take m.nrefs).Nodup :=
      hnd.sublist (List.take_sublist m.nrefs g2.free)
    refine ⟨_, free_callback_fires xentag m g2 ss htmp hpool, rfl, rfl,
            ?_, ?_⟩
    · exact grant_each_zip (g2.free.take m.nrefs) ss xentag.domid
        m.gnttab_flags { g2 with free := g2.free.drop m.nrefs } hndb
    · refine ⟨{ m with refs := none, nrefs := 0, sleepable := false,
                       loaded := false, temp_segs := none },
              gnttab_end_foreign_access_references (g2.free.take m.nrefs)
                (grant_each (g2.free.take m.nrefs) ss xentag.domid
                  m.gnttab_flags
                  { g2 with free := g2.free.drop m.nrefs }),
              [.end_access_references (g2.free.take m.nrefs),
               .free_refs_array, .parent_unload], ?_, rfl, ?_⟩
      · simp [xen_bus_dmamap_unload, hpre, hbtake]
      · intro x hx
        exact gref_binding_end_references_mem _ _ x hx
  · intro m op op_flags segp0 mr mt g segs l hop hld hpre htmp hrefs hnd
      hlen
    have hstake : segs.take segs.length = segs := List.take_length segs
    have hndb : (l.take segs.length).Nodup :=
      hnd.sublist (List.take_sublist segs.length l)
    refine ⟨{ m with
                gnttab_flags := op_flags >>> BUS_DMA_XEN_GNTTAB_FLAGS_SHIFT,
                nrefs := segs.length },
            load_helper_prealloc xentag m op op_flags segp0 mr mt g segs
              hop hld hpre,
            hrefs, (complete_parts _ _ _ _).1, ?_, ?_⟩
    · have hcomp :
          (xen_bus_dmamap_complete xentag
            { m with
                gnttab_flags := op_flags >>> BUS_DMA_XEN_GNTTAB_FLAGS_SHIFT,
                nrefs := segs.length } segs 0 g).2 =
          grant_each (l.take segs.length) segs xentag.domid
            (op_flags >>> BUS_DMA_XEN_GNTTAB_FLAGS_SHIFT) g := by
        simp [xen_bus_dmamap_complete, hrefs, hstake]
      rw [hcomp]
      exact grant_each_zip (l.take segs.length) segs xentag.domid
        (op_flags >>> BUS_DMA_XEN_GNTTAB_FLAGS_SHIFT) g hndb
    · refine ⟨{ m with
                  gnttab_flags :=
                    op_flags >>> BUS_DMA_XEN_GNTTAB_FLAGS_SHIFT,
                  nrefs := 0,
                  sleepable := false,
                  loaded := false },
              (l.take segs.length).foldl
                (fun gs r => gnttab_end_foreign_access_ref r gs)
                (xen_bus_dmamap_complete xentag
                  { m with
                      gnttab_flags :=
                        op_flags >>> BUS_DMA_XEN_GNTTAB_FLAGS_SHIFT,
                      nrefs := segs.length } segs 0 g).2,
              (l.take segs.length).map .end_access ++ [.parent_unload],
              ?_, ?_⟩
      · simp [xen_bus_dmamap_unload, htmp, hpre, hrefs]
      · intro x hx
        rw [gref_binding_end_fold]
        simp [hx]

/-- Witness for the amended C1: a two-segment synchronous load on an idle
map against a three-slot pool (part 1); the free callback firing on the
pending map `mapD` against a four-slot pool (part 2); and a one-segment
load on the preallocated map `mapP` (part 3). -/
theorem C1_amended_grant_association_witness :
    (is_sync_load (.load_buffer (.ok segs2)) segs2 ∧
     zeroed_map.loaded = false ∧ zeroed_map.preallocated = false ∧
     zeroed_map.temp_segs = none ∧ segs2.length ≤ pool3.free.length ∧
     pool3.free.Nodup ∧
     (∃ m1 g1,
       xen_load_helper tag74 zeroed_map (.load_buffer (.ok segs2)) 0x10000
           0 true true pool3 =
         .ret 0 m1 g1 false false ∧
       m1.refs = some (pool3.free.take segs2.length) ∧
       (xen_bus_dmamap_complete tag74 m1 segs2 0 g1).1 = segs2 ∧
       (∀ p ∈ (pool3.free.take segs2.length).zip segs2,
         gref_binding (xen_bus_dmamap_complete tag74 m1 segs2 0 g1).2 p.1 =
           some ⟨tag74.domid, atop p.2.ds_addr,
                 0x10000 >>> BUS_DMA_XEN_GNTTAB_FLAGS_SHIFT⟩) ∧
       (∃ mu gu ev,
         xen_bus_dmamap_unload m1
             (xen_bus_dmamap_complete tag74 m1 segs2 0 g1).2 =
           some (mu, gu, ev) ∧
         mu.refs = none ∧
         ∀ r ∈ pool3.free.take segs2.length, gref_binding gu r = none))) ∧
    (mapD.temp_segs = some segs2 ∧ mapD.nrefs = segs2.length ∧
     mapD.preallocated = false ∧ mapD.nrefs ≤ pool4.free.length ∧
     pool4.free.Nodup ∧
     (∃ r, xen_gnttab_free_callback tag74 mapD pool4 = some r ∧
       r.callback_segs = segs2 ∧
       r.m.refs = some (pool4.free.take mapD.nrefs) ∧
       (∀ p ∈ (pool4.free.take mapD.nrefs).zip segs2,
         gref_binding r.g p.1 =
           some ⟨tag74.domid, atop p.2.ds_addr, mapD.gnttab_flags⟩) ∧
       (∃ mu gu ev,
         xen_bus_dmamap_unload r.m r.g = some (mu, gu, ev) ∧
         mu.refs = none ∧
         ∀ x ∈ pool4.free.take mapD.nrefs, gref_binding gu x = none))) ∧
    (is_sync_load (.load_phys (.ok seg1)) seg1 ∧
     mapP.loaded = false ∧ mapP.preallocated = true ∧
     mapP.temp_segs = none ∧ mapP.refs = some [5, 6, 7, 8] ∧
     ([5, 6, 7, 8] : List Nat).Nodup ∧
     seg1.length ≤ ([5, 6, 7, 8] : List Nat).length ∧
     (∃ m1,
       xen_load_helper tag74 mapP (.load_phys (.ok seg1)) 0 0 true true
           pool0 =
         .ret 0 m1 pool0 false false ∧
       m1.refs = some [5, 6, 7, 8] ∧
       (xen_bus_dmamap_complete tag74 m1 seg1 0 pool0).1 = seg1 ∧
       (∀ p ∈ (([5, 6, 7, 8] : List Nat).take seg1.length).zip seg1,
         gref_binding (xen_bus_dmamap_complete tag74 m1 seg1 0 pool0).2
             p.1 =
           some ⟨tag74.domid, atop p.2.ds_addr,
                 0 >>> BUS_DMA_XEN_GNTTAB_FLAGS_SHIFT⟩) ∧
       (∃ mu gu ev,
         xen_bus_dmamap_unload m1
             (xen_bus_dmamap_complete tag74 m1 seg1 0 pool0).2 =
           some (mu, gu, ev) ∧
         ∀ x ∈ ([5, 6, 7, 8] : List Nat).take seg1.length,
           gref_binding gu x = none))) :=
  ⟨⟨by decide, by decide, by decide, by decide, by decide, by decide,
    (C1_amended_grant_association tag74).1 zeroed_map
      (.load_buffer (.ok segs2)) 0x10000 0 pool3 segs2
      (Or.inr (Or.inr rfl)) (by decide) (by decide) (by decide) (by decide)
      (by decide)⟩,
   ⟨by decide, by decide, by decide, by decide, by decide,
    (C1_amended_grant_association tag74).2.1 mapD pool4 segs2 (by decide)
      (by decide) (by decide) (by decide) (by decide)⟩,
   ⟨by decide, by decide, by decide, by decide, by decide, by decide,
    by decide,
    (C1_amended_grant_association tag74).2.2 mapP (.load_phys (.ok seg1))
      0 0 true true pool0 seg1 [5, 6, 7, 8] (Or.inr (Or.inl rfl))
      (by decide) (by decide) (by decide) (by decide) (by decide)
      (by decide)⟩⟩

/-- C2: for every successful synchronous load, the number of grant
references claimed equals the number of DMA segments produced by
translation (the cursor delta), and completion binds each reference to
its segment's frame with the access flags decoded from the high 16 bits
of the load's flags argument. -/
theorem C2_ref_count_and_flags (xentag : bus_dma_tag_xen)
    (m : bus_dmamap_xen) (op : load_op) (op_flags segp0 : Nat)
    (g : gnttab_state) (segs : List bus_dma_segment_t)
    (hop : is_sync_load op segs)
    (hld : m.loaded = false) (hpre : m.preallocated = false)
    (hpool : segs.length ≤ g.free.length) (hnd : g.free.Nodup) :
    ∃ m1 g1,
      xen_load_helper xentag m op op_flags segp0 true true g =
        .ret 0 m1 g1 false false ∧
      m1.nrefs = (segp0 + segs.length) - segp0 ∧
      m1.nrefs = segs.length ∧
      (∃ batch, m1.refs = some batch ∧ batch.length = segs.length ∧
        m1.gnttab_flags = op_flags >>> BUS_DMA_XEN_GNTTAB_FLAGS_SHIFT ∧
        ∀ p ∈ batch.zip segs,
          gref_binding (xen_bus_dmamap_complete xentag m1 segs 0 g1).2 p.1 =
            some ⟨xentag.domid, atop p.2.ds_addr,
                  op_flags >>> BUS_DMA_XEN_GNTTAB_FLAGS_SHIFT⟩) := by
  have hblen : (g.free.take segs.length).length = segs.length := by
    rw [List.length_take]
    omega
  have hbtake :
      (g.free.take segs.length).take segs.length = g.free.take segs.length :=
    List.take_of_length_le (le_of_eq hblen)
  have hstake : segs.take segs.length = segs := List.take_length segs
  have hndb : (g.free.take segs.length).Nodup :=
    hnd.sublist (List.take_sublist segs.length g.free)
  refine ⟨{ m with
              gnttab_flags := op_flags >>> BUS_DMA_XEN_GNTTAB_FLAGS_SHIFT,
              nrefs := segs.length,
              refs := some (g.free.take segs.length),
              loaded := true },
          { g with free := g.free.drop segs.length },
          load_helper_sync_success xentag m op op_flags segp0 g segs hop hld
            hpre hpool,
          by simp, rfl, g.free.take segs.length, rfl, hblen, rfl, ?_⟩
  have hcomp :
      (xen_bus_dmamap_complete xentag
        { m with
            gnttab_flags := op_flags >>> BUS_DMA_XEN_GNTTAB_FLAGS_SHIFT,
            nrefs := segs.length,
            refs := some (g.free.take segs.length),
            loaded := true } segs 0
        { g with free := g.free.drop segs.length }).2 =
      grant_each (g.free.take segs.length) segs xentag.domid
        (op_flags >>> BUS_DMA_XEN_GNTTAB_FLAGS_SHIFT)
        { g with free := g.free.drop segs.length } := by
    simp [xen_bus_dmamap_complete, hbtake, hstake]
  rw [hcomp]
  exact grant_each_zip (g.free.take segs.length) segs xentag.domid
    (op_flags >>> BUS_DMA_XEN_GNTTAB_FLAGS_SHIFT)
    { g with free := g.free.drop segs.length } hndb

/-- Witness for C2: a two-segment read-only load (`BUS_DMA_XEN_RO` in the
high flag bits) on an idle map against a three-slot pool. -/
theorem C2_ref_count_and_flags_witness :
    is_sync_load (.load_ma (.ok segs2)) segs2 ∧
    zeroed_map.loaded = false ∧ zeroed_map.preallocated = false ∧
    segs2.length ≤ pool3.free.length ∧ pool3.free.Nodup ∧
    (∃ m1 g1,
      xen_load_helper tag74 zeroed_map (.load_ma (.ok segs2)) 0x10000 3
          true true pool3 =
        .ret 0 m1 g1 false false ∧
      m1.nrefs = (3 + segs2.length) - 3 ∧
      m1.nrefs = segs2.length ∧
      (∃ batch, m1.refs = some batch ∧ batch.length = segs2.length ∧
        m1.gnttab_flags = 0x10000 >>> BUS_DMA_XEN_GNTTAB_FLAGS_SHIFT ∧
        ∀ p ∈ batch.zip segs2,
          gref_binding (xen_bus_dmamap_complete tag74 m1 segs2 0 g1).2 p.1 =
            some ⟨tag74.domid, atop p.2.ds_addr,
                  0x10000 >>> BUS_DMA_XEN_GNTTAB_FLAGS_SHIFT⟩)) :=
  ⟨by decide, by decide, by decide, by decide, by decide,
   C2_ref_count_and_flags tag74 zeroed_map (.load_ma (.ok segs2)) 0x10000 3
     pool3 segs2 (Or.inl rfl) (by decide) (by decide) (by decide)
     (by decide)⟩

/-- C3: a deferred-tolerant load that hits grant-pool exhaustion snapshots
the translated segments into map-owned `temp_segs`, arms the one-shot
free-callback notification, and returns `EINPROGRESS`; whenever the
notification later fires — against any grant-table state with enough free
references, so in particular after unrelated loads on other maps have
completed in between — the client callback is invoked exactly once with
the originally snapshotted segments, the claimed references bound to
their original addresses, and the snapshot is released. -/
theorem C3_deferred_retry (xentag : bus_dma_tag_xen)
    (m : bus_dmamap_xen) (op : load_op) (op_flags segp0 : Nat)
    (g : gnttab_state) (segs : List bus_dma_segment_t)
    (hop : is_sync_load op segs)
    (hld : m.loaded = false) (hpre : m.preallocated = false)
    (hsl : m.sleepable = true) (htmp : m.temp_segs = none)
    (hpool : g.free.length < segs.length) :
    ∃ m1,
      xen_load_helper xentag m op op_flags segp0 true true g =
        .ret EINPROGRESS m1 g false true ∧
      m1.temp_segs = some segs ∧
      m1.nrefs = segs.length ∧
      ∀ g2 : gnttab_state, segs.length ≤ g2.free.length → g2.free.Nodup →
        ∃ r, xen_gnttab_free_callback xentag m1 g2 = some r ∧
          r.callback_count = 1 ∧
          r.callback_error = 0 ∧
          r.callback_nseg = segs.length ∧
          r.callback_segs = segs ∧
          r.m.refs = some (g2.free.take segs.length) ∧
          r.m.loaded = true ∧
          r.m.temp_segs = none ∧
          ∀ p ∈ (g2.free.take segs.length).zip segs,
            gref_binding r.g p.1 =
              some ⟨xentag.domid, atop p.2.ds_addr,
                    op_flags >>> BUS_DMA_XEN_GNTTAB_FLAGS_SHIFT⟩ := by
  refine ⟨{ m with
              gnttab_flags := op_flags >>> BUS_DMA_XEN_GNTTAB_FLAGS_SHIFT,
              nrefs := segs.length,
              refs := some (List.replicate segs.length 0),
              temp_segs := some segs },
          load_helper_exhausted_sleepable xentag m op op_flags segp0 g segs
            hop hld hpre hsl htmp hpool,
          rfl, rfl, ?_⟩
  intro g2 hpool2 hnd2
  have hndb : (g2.free.take segs.length).Nodup :=
    hnd2.sublist (List.take_sublist segs.length g2.free)
  refine ⟨⟨{ m with
               gnttab_flags := op_flags >>> BUS_DMA_XEN_GNTTAB_FLAGS_SHIFT,
               nrefs := segs.length,
               refs := some (g2.free.take segs.length),
               temp_segs := none,
               loaded := true },
           grant_each (g2.free.take segs.length) segs xentag.domid
             (op_flags >>> BUS_DMA_XEN_GNTTAB_FLAGS_SHIFT)
             { g2 with free := g2.free.drop segs.length },
           segs, segs.length, 0, 1⟩, ?_, rfl, rfl, rfl, rfl, rfl, rfl, rfl,
          ?_⟩
  · simp [xen_gnttab_free_callback, gnttab_alloc_grant_references, hpool2]
  · exact grant_each_zip (g2.free.take segs.length) segs xentag.domid
      (op_flags >>> BUS_DMA_XEN_GNTTAB_FLAGS_SHIFT)
      { g2 with free := g2.free.drop segs.length } hndb

/-- Witness for C3: a two-segment deferred load against a one-slot pool,
with the notification firing later against a disjoint four-slot pool (as
left behind by unrelated loads on other maps). -/
theorem C3_deferred_retry_witness :
    is_sync_load (.load_phys (.ok segs2)) segs2 ∧
    zeroed_map.loaded = false ∧ zeroed_map.preallocated = false ∧
    ({ zeroed_map with sleepable := true } :
        bus_dmamap_xen).sleepable = true ∧
    ({ zeroed_map with sleepable := true } :
        bus_dmamap_xen).temp_segs = none ∧
    pool1.free.length < segs2.length ∧
    (∃ m1,
      xen_load_helper tag74 { zeroed_map with sleepable := true }
          (.load_phys (.ok segs2)) 0 0 true true pool1 =
        .ret EINPROGRESS m1 pool1 false true ∧
      m1.temp_segs = some segs2 ∧
      m1.nrefs = segs2.length ∧
      ∀ g2 : gnttab_state, segs2.length ≤ g2.free.length → g2.free.Nodup →
        ∃ r, xen_gnttab_free_callback tag74 m1 g2 = some r ∧
          r.callback_count = 1 ∧
          r.callback_error = 0 ∧
          r.callback_nseg = segs2.length ∧
          r.callback_segs = segs2 ∧
          r.m.refs = some (g2.free.take segs2.length) ∧
          r.m.loaded = true ∧
          r.m.temp_segs = none ∧
          ∀ p ∈ (g2.free.take segs2.length).zip segs2,
            gref_binding r.g p.1 =
              some ⟨tag74.domid, atop p.2.ds_addr,
                    0 >>> BUS_DMA_XEN_GNTTAB_FLAGS_SHIFT⟩) :=
  ⟨by decide, by decide, by decide, by decide, by decide, by decide,
   C3_deferred_retry tag74 { zeroed_map with sleepable := true }
     (.load_phys (.ok segs2)) 0 0 pool1 segs2 (Or.inr (Or.inl rfl))
     (by decide) (by decide) (by decide) (by decide) (by decide)⟩

end BusdmaXen
